import Mathlib

/-!
Shallow embedding of the check-in tracker (`app.py`): the record-store
adapter (`load_data` with its 5-second cache, `save_data` with its retry
loop) and the check-in engine (participant lookup, the per-activity
validation state machine, and the tab handlers that apply and persist the
state transition).

A participant row carries the columns actually read or written by the
program.  Cells other than `ID Code` and `Name` are `Option String`:
`none` models an absent column, matching the code's use of
`participant_row.get(col, default)`.
-/

namespace Participants

structure Row where
  idCode : String
  name : String
  assignedDay : Option String
  busCheckin : Option String
  busTimestamp : Option String
  foodCollection : Option String
  foodTimestamp : Option String
  overrideStatus : Option String
  overrideTimestamp : Option String
deriving DecidableEq, Repr

/-- `participant_row.get(col, default)` / `participant_row[col]`:
column lookup on a row by header name. -/
def Row.get (r : Row) (col : String) : Option String :=
  if col == "ID Code" then some r.idCode
  else if col == "Name" then some r.name
  else if col == "Assigned Day" then r.assignedDay
  else if col == "Bus Check-in" then r.busCheckin
  else if col == "Bus Timestamp" then r.busTimestamp
  else if col == "Food Collection" then r.foodCollection
  else if col == "Food Timestamp" then r.foodTimestamp
  else if col == "Override" then r.overrideStatus
  else if col == "Override Timestamp" then r.overrideTimestamp
  else none

/-- Writing one cell of a row by header name (the effect, on one matching
row, of `df.loc[mask, col] = v`). -/
def Row.set (r : Row) (col v : String) : Row :=
  if col == "ID Code" then { r with idCode := v }
  else if col == "Name" then { r with name := v }
  else if col == "Assigned Day" then { r with assignedDay := some v }
  else if col == "Bus Check-in" then { r with busCheckin := some v }
  else if col == "Bus Timestamp" then { r with busTimestamp := some v }
  else if col == "Food Collection" then { r with foodCollection := some v }
  else if col == "Food Timestamp" then { r with foodTimestamp := some v }
  else if col == "Override" then { r with overrideStatus := some v }
  else if col == "Override Timestamp" then { r with overrideTimestamp := some v }
  else r

/-- The Table: `pd.read_csv` yields an ordered collection of rows. -/
abbrev Table := List Row

/-- The whitespace characters Python's `str.strip()` removes (the ASCII
ones, which are the relevant alphabet here). -/
def isPySpace (c : Char) : Bool :=
  c == ' ' || c == '\t' || c == '\n' || c == '\r' || c == '\x0b' || c == '\x0c'

/-- Characters remaining after removing a leading run satisfying `p`. -/
def dropLeading (p : Char → Bool) : List Char → List Char
  | [] => []
  | c :: cs => if p c then dropLeading p cs else c :: cs

/-- Python `s.strip()`: remove leading and trailing whitespace. -/
def pyStrip (s : String) : String :=
  ⟨(dropLeading isPySpace ((dropLeading isPySpace s.data).reverse)).reverse⟩

/-- Splitting a character list on a separator character, Python style:
`n` separators yield `n + 1` pieces. -/
def pySplitAux (sep : Char) : List Char → List Char → List (List Char)
  | [], acc => [acc.reverse]
  | c :: cs, acc =>
    if c == sep then acc.reverse :: pySplitAux sep cs []
    else pySplitAux sep cs (c :: acc)

/-- Python `s.split(sep)` for a one-character separator. -/
def pySplit (s : String) (sep : Char) : List String :=
  (pySplitAux sep s.data []).map (fun cs => ⟨cs⟩)

/-- Python `s.lower()`: character-wise lower casing. -/
def pyLower (s : String) : String :=
  ⟨s.data.map (fun c =>
    if 'A' ≤ c && c ≤ 'Z' then Char.ofNat (c.toNat + 32) else c)⟩

/-- Lines 75-76: `str(participant_row.get("Assigned Day", "")).split(",")`
followed by `[d.strip() for d in assigned_days if d.strip()]`. -/
def parse_assigned_days (raw : String) : List String :=
  ((pySplit raw ',').map pyStrip).filter (fun d => d != "")

/-- Lines 73-87, `validate_action(participant_row, action_col)`: the
validation state machine, with `today_day` passed explicitly in place of
`datetime.today().strftime("%Y-%m-%d")`.  Returns the `(status, msg)`
pair of the source. -/
def validate_action (participant_row : Row) (action_col : String)
    (today_day : String) : String × String :=
  let assigned_days := parse_assigned_days
    ((participant_row.get "Assigned Day").getD "")
  let already_done := (participant_row.get action_col).getD "No" == "Yes"
  if !assigned_days.isEmpty && !assigned_days.contains today_day
      && action_col != "Override" then
    ("invalid_day", "❌ Not assigned for today (" ++ today_day ++ ").")
  else if already_done then
    ("already", "⚠️ Already recorded for " ++ action_col ++ ".")
  else
    ("ok", "✅ Allowed to proceed with " ++ action_col ++ ".")

/-- Lines 47-48, `get_participant(id_code)`:
`df[df["ID Code"].astype(str) == id_code]`. -/
def get_participant (df : Table) (id_code : String) : Table :=
  df.filter (fun r => r.idCode == id_code)

/-- Lines 17-20, `load_data()` under `@st.cache_data(ttl=5)`: the cache,
when it holds an entry younger than the 5-second TTL, is served instead of
the remote store.  `cache` is `some (table, cachedAt)` when an entry
exists; `now` and `cachedAt` are in seconds. -/
def load_data (cache : Option (Table × Nat)) (now : Nat) (remote : Table) :
    Table :=
  match cache with
  | some (cached, cachedAt) => if now - cachedAt < 5 then cached else remote
  | none => remote

/-- The three activities whose handlers exist in the source (tab1 bus,
tab2 food, tab3 override). -/
inductive Activity where
  | bus
  | food
  | overrideAct
deriving DecidableEq, Repr

/-- The status column each handler writes (lines 112, 147, 180). -/
def statusCol : Activity → String
  | .bus => "Bus Check-in"
  | .food => "Food Collection"
  | .overrideAct => "Override"

/-- The timestamp column each handler writes (lines 113, 148, 181). -/
def tsCol : Activity → String
  | .bus => "Bus Timestamp"
  | .food => "Food Timestamp"
  | .overrideAct => "Override Timestamp"

/-- `df.loc[df["ID Code"].astype(str) == id_code, col] = v`: write cell
`col` of every row whose `ID Code` equals `id_code`. -/
def loc_set (df : Table) (id_code col v : String) : Table :=
  df.map (fun r => if r.idCode == id_code then r.set col v else r)

/-- The two masked cell writes of a handler (e.g. lines 112-113): status
cell to `"Yes"`, then timestamp cell to the current time string. -/
def apply_checkin (df : Table) (id_code : String) (a : Activity)
    (ts : String) : Table :=
  loc_set (loc_set df id_code (statusCol a) "Yes") id_code (tsCol a) ts

/-- One observable event of `save_data` (lines 23-36).  `attemptEv k sha ok
payload` is attempt number `k` (0-based): the SHA fetched by
`repo.get_contents` at that attempt, whether `repo.update_file` with that
SHA succeeded, and the full CSV payload written (the whole table).
`sleepEv tenths` is `time.sleep`, in tenths of a second. -/
inductive SaveEvent where
  | attemptEv (k : Nat) (sha : Nat) (ok : Bool) (payload : Table)
  | sleepEv (tenths : Nat)
deriving DecidableEq, Repr

/-- The body of `save_data`'s `for attempt in range(retries)` loop, from
attempt number `attempt` with `remaining` attempts left.  The environment
is abstracted by `fails k` (does the try-block of attempt `k` raise?) and
`shaAt k` (the remote version token `repo.get_contents` returns at attempt
`k`).  Returns the Boolean result of `save_data` and the event trace. -/
def save_data_go (df : Table) (fails : Nat → Bool) (shaAt : Nat → Nat) :
    Nat → Nat → Bool × List SaveEvent
  | _, 0 => (false, [])
  | attempt, remaining + 1 =>
    let s := shaAt attempt
    if fails attempt then
      if remaining == 0 then
        (false, [SaveEvent.attemptEv attempt s false df])
      else
        let rest := save_data_go df fails shaAt (attempt + 1) remaining
        (rest.1, SaveEvent.attemptEv attempt s false df
          :: SaveEvent.sleepEv 15 :: rest.2)
    else
      (true, [SaveEvent.attemptEv attempt s true df])

/-- Lines 23-36, `save_data(df, commit_msg)`: `retries = 3`; each attempt
re-fetches the SHA and submits the one CSV encoding of `df` computed
before the loop; on failure it sleeps 1.5 s unless the attempt was the
last, in which case it reports failure (`return False`). -/
def save_data (df : Table) (fails : Nat → Bool) (shaAt : Nat → Nat) :
    Bool × List SaveEvent :=
  save_data_go df fails shaAt 0 3

/-- The caller-facing classification of one handler run. -/
inductive Outcome where
  | idle
  | notFound
  | blockedInvalidDay (msg : String)
  | blockedAlready (msg : String)
  | persistFailed
  | recorded (name : String)
deriving DecidableEq, Repr

/-- What a handler run produced: its outcome, the content of the remote
store afterwards, and whether `save_data` was invoked at all. -/
structure HandlerResult where
  outcome : Outcome
  store : Table
  saveIssued : Bool
deriving DecidableEq, Repr

/-- Lines 91-123 (tab1) and 126-157 (tab2), parametrised by the activity:
`id_code = st.text_input(...).strip()`; lookup in the module-level
`df = load_data()` snapshot (`viewDf`); `validate_action`; on `"ok"` and a
button press, `df = load_data()` again (through the cache), the two masked
cell writes, and `save_data`.  On a successful save the remote store holds
the written table; on failure it is untouched. -/
def checkin_tab (viewDf : Table) (cache : Option (Table × Nat)) (now : Nat)
    (store : Table) (rawId : String) (a : Activity) (today ts : String)
    (buttonPressed : Bool) (fails : Nat → Bool) (shaAt : Nat → Nat) :
    HandlerResult :=
  let id_code := pyStrip rawId
  if id_code == "" then ⟨.idle, store, false⟩
  else
    match get_participant viewDf id_code with
    | [] => ⟨.notFound, store, false⟩
    | participant :: _ =>
      let vres := validate_action participant (statusCol a) today
      if vres.1 == "invalid_day" then ⟨.blockedInvalidDay vres.2, store, false⟩
      else if vres.1 == "already" then ⟨.blockedAlready vres.2, store, false⟩
      else if buttonPressed then
        let df := load_data cache now store
        let df2 := apply_checkin df id_code a ts
        if (save_data df2 fails shaAt).1 then
          ⟨.recorded participant.name, df2, true⟩
        else ⟨.persistFailed, store, true⟩
      else ⟨.idle, store, false⟩

/-- Lines 161-190 (tab3, Override): identical pipeline except that only
the `"already"` status blocks — there is no `"invalid_day"` branch in the
source. -/
def override_tab (viewDf : Table) (cache : Option (Table × Nat)) (now : Nat)
    (store : Table) (rawId : String) (today ts : String)
    (buttonPressed : Bool) (fails : Nat → Bool) (shaAt : Nat → Nat) :
    HandlerResult :=
  let id_code := pyStrip rawId
  if id_code == "" then ⟨.idle, store, false⟩
  else
    match get_participant viewDf id_code with
    | [] => ⟨.notFound, store, false⟩
    | participant :: _ =>
      let vres := validate_action participant "Override" today
      if vres.1 == "already" then ⟨.blockedAlready vres.2, store, false⟩
      else if buttonPressed then
        let df := load_data cache now store
        let df2 := apply_checkin df id_code Activity.overrideAct ts
        if (save_data df2 fails shaAt).1 then
          ⟨.recorded participant.name, df2, true⟩
        else ⟨.persistFailed, store, true⟩
      else ⟨.idle, store, false⟩

/-- The Boolean guard of `validate_action`'s first branch (line 82):
does the day gate fire for this row, action column and day? -/
def day_gate_fires (r : Row) (action_col today_day : String) : Bool :=
  let assigned_days := parse_assigned_days ((r.get "Assigned Day").getD "")
  !assigned_days.isEmpty && !assigned_days.contains today_day
    && action_col != "Override"

/-- Terminal classifications of the validation state machine as the spec
names them. -/
inductive SpecResult where
  | blockedNotAssignedToday
  | blockedAlreadyRecorded
  | allowed
deriving DecidableEq, Repr

/-- The validation state machine exactly as the spec words it (§4.2): if
the activity is day-gated, the assigned-dates set is non-empty, and today
is not a member, block for the day; else if the status is already Yes,
block as already recorded; else allow.  Kept separate from
`validate_action` so the two can be compared. -/
def spec_classify (day_gated : Bool) (assigned : List String)
    (today : String) (status_yes : Bool) : SpecResult :=
  if day_gated && !assigned.isEmpty && !assigned.contains today then
    SpecResult.blockedNotAssignedToday
  else if status_yes then SpecResult.blockedAlreadyRecorded
  else SpecResult.allowed

/-- Reads the code's status string as a terminal classification. -/
def statusToSpec (s : String) : SpecResult :=
  if s == "invalid_day" then SpecResult.blockedNotAssignedToday
  else if s == "already" then SpecResult.blockedAlreadyRecorded
  else SpecResult.allowed

/-- Does an outcome report a day-gate block? -/
def isInvalidDayOutcome : Outcome → Bool
  | .blockedInvalidDay _ => true
  | _ => false

/-- Number of write attempts (`repo.update_file` submissions) in a
`save_data` trace. -/
def countAttempts (tr : List SaveEvent) : Nat :=
  (tr.filter fun e => match e with
    | .attemptEv _ _ _ _ => true
    | _ => false).length

/-! Concrete rows and tables used as counterexamples and witnesses. -/

/-- Alice, assigned 2025-08-21, bus check-in already recorded. -/
def rowAliceDone : Row :=
  ⟨"A100", "Alice", some "2025-08-21", some "Yes", none,
    none, none, none, none⟩

/-- Alice, assigned 2025-08-21, bus check-in still pending. -/
def rowAliceTodo : Row :=
  ⟨"A100", "Alice", some "2025-08-21", some "No", none,
    none, none, none, none⟩

/-- Bob before his food collection was recorded. -/
def rowBobStale : Row :=
  ⟨"B200", "Bob", none, none, none, some "No", none, none, none⟩

/-- Bob as a concurrent client recorded him: food collected at 08:00. -/
def rowBobFresh : Row :=
  ⟨"B200", "Bob", none, none, none, some "Yes",
    some "2025-08-21 08:00:00", none, none⟩

/-- Bob after this client records his food collection at 09:00. -/
def rowBobDone : Row :=
  ⟨"B200", "Bob", none, none, none, some "Yes",
    some "2025-08-21 09:00:00", none, none⟩

/-- Cara, assigned days written with the comma separator. -/
def rowCommaSep : Row :=
  ⟨"C300", "Cara", some "2025-08-20,2025-08-21", none, none,
    none, none, none, none⟩

/-- Dana, assigned days written with the space separator. -/
def rowSpaceSep : Row :=
  ⟨"D400", "Dana", some "2025-08-21 2025-08-22", none, none,
    none, none, none, none⟩

/-- The table as this client's 2-second-old cache holds it. -/
def staleTable : Table := [rowAliceTodo, rowBobStale]

/-- The table as the remote store holds it: a concurrent client has
meanwhile recorded Bob's food collection. -/
def freshTable : Table := [rowAliceTodo, rowBobFresh]

/-! Helper lemmas. -/

theorem validate_action_eq (r : Row) (c t : String) :
    validate_action r c t =
      if day_gate_fires r c t then
        ("invalid_day", "❌ Not assigned for today (" ++ t ++ ").")
      else if (r.get c).getD "No" == "Yes" then
        ("already", "⚠️ Already recorded for " ++ c ++ ".")
      else
        ("ok", "✅ Allowed to proceed with " ++ c ++ ".") := rfl

/-- C4: the code's validation state machine agrees, on every row, action
column and day, with the spec's: day-gate check first (gated means not
`Override`, with a non-empty parsed assigned-dates set not containing
today), then the already-recorded check, else allowed; in particular an
empty assigned-dates set never blocks. -/
theorem validate_action_matches_spec_machine (r : Row) (act t : String) :
    statusToSpec (validate_action r act t).1 =
      spec_classify (act != "Override")
        (parse_assigned_days ((r.get "Assigned Day").getD "")) t
        ((r.get act).getD "No" == "Yes") := by
  simp only [validate_action, spec_classify, statusToSpec, bne]
  rcases Bool.eq_false_or_eq_true
      ((parse_assigned_days ((r.get "Assigned Day").getD "")).isEmpty)
    with hE | hE <;>
  rcases Decidable.em
      (t ∈ parse_assigned_days ((r.get "Assigned Day").getD ""))
    with hC | hC <;>
  rcases Bool.eq_false_or_eq_true (act == "Override") with hO | hO <;>
  rcases Bool.eq_false_or_eq_true ((r.get act).getD "No" == "Yes")
    with hY | hY <;>
  simp [hE, hC, hO, hY]

/-- C7: validating `Override` ignores the assigned days entirely — the
result is `"already"` exactly when its own status is already `Yes` and
`"ok"` otherwise — and no run of the override tab can produce a day-gate
block. -/
theorem override_never_day_gated :
    (∀ (r : Row) (t : String), (validate_action r "Override" t).1 =
      if (r.get "Override").getD "No" == "Yes" then "already" else "ok") ∧
    (∀ (viewDf : Table) (cache : Option (Table × Nat)) (now : Nat)
      (store : Table) (rawId today ts : String) (btn : Bool)
      (fails : Nat → Bool) (shaAt : Nat → Nat),
      isInvalidDayOutcome
        (override_tab viewDf cache now store rawId today ts btn fails
          shaAt).outcome = false) := by
  constructor
  · intro r t
    simp only [validate_action]
    cases hY : (r.get "Override").getD "No" == "Yes" <;> simp [hY]
  · intro viewDf cache now store rawId today ts btn fails shaAt
    simp only [override_tab]
    cases hid : pyStrip rawId == "" <;> simp only [hid, Bool.false_eq_true,
      if_true, if_false, reduceIte]
    · cases hg : get_participant viewDf (pyStrip rawId) with
      | nil => simp [isInvalidDayOutcome]
      | cons p rest =>
        repeat' split
        all_goals simp [isInvalidDayOutcome]
    · rfl

/-- C6 counterexample: Dana's `Assigned Day` lists today using the space
separator, yet the day gate blocks her day-gated activity — the parser
splits on commas only. -/
theorem space_separated_day_still_blocks :
    ((pySplit "2025-08-21 2025-08-22" ' ').contains "2025-08-21") = true ∧
    rowSpaceSep.get "Assigned Day" = some "2025-08-21 2025-08-22" ∧
    (validate_action rowSpaceSep "Bus Check-in" "2025-08-21").1 =
      "invalid_day" := by
  refine ⟨by decide, rfl, by decide⟩

/-- C6 (amended): the `Assigned Day` field is parsed as zero or more
comma-separated entries, each trimmed; space separation is not supported.
For every participant whose parsed comma-separated list contains today,
the day gate does not block: validation is `"already"` or `"ok"`
according to the already-done check alone. -/
theorem comma_listed_day_not_blocked (r : Row) (act t : String)
    (hmem : t ∈ parse_assigned_days ((r.get "Assigned Day").getD "")) :
    (validate_action r act t).1 =
      if (r.get act).getD "No" == "Yes" then "already" else "ok" := by
  simp only [validate_action]
  rcases Bool.eq_false_or_eq_true ((r.get act).getD "No" == "Yes")
    with hY | hY <;>
  simp [hmem, hY]

theorem comma_listed_day_not_blocked_witness :
    ("2025-08-21" ∈ parse_assigned_days
      ((rowCommaSep.get "Assigned Day").getD "")) ∧
    (validate_action rowCommaSep "Bus Check-in" "2025-08-21").1 =
      if (rowCommaSep.get "Bus Check-in").getD "No" == "Yes" then "already"
      else "ok" :=
  ⟨by decide, comma_listed_day_not_blocked rowCommaSep "Bus Check-in"
    "2025-08-21" (by decide)⟩

/-- C5 counterexample: the input `" a100 "` equals Alice's ID Code
`"A100"` up to surrounding whitespace and letter case, yet the handler
reports the participant as not found — lookup is case-sensitive. -/
theorem case_mismatched_lookup_not_found :
    pyLower (pyStrip " a100 ") = pyLower rowAliceDone.idCode ∧
    (checkin_tab [rowAliceDone] none 0 [rowAliceDone] " a100 " Activity.bus
      "2025-08-21" "2025-08-21 09:00:00" true (fun _ => false)
      (fun _ => 0)).outcome = Outcome.notFound := by
  refine ⟨by decide, by decide⟩

/-- C5 (amended): the input id code is normalized by trimming surrounding
whitespace only (no case fold), and lookup compares it to `ID Code`
exactly: for every participant in the Table, lookup finds it (the looked
up row's `ID Code` equals the trimmed input) for any input equal to its
`ID Code` up to surrounding whitespace, in the same letter case. -/
theorem trimmed_exact_lookup_succeeds (df : Table) (rawId : String)
    (r : Row) (h1 : r ∈ df) (h2 : pyStrip rawId = r.idCode) :
    ((get_participant df (pyStrip rawId)).head?).map Row.idCode =
      some (pyStrip rawId) := by
  have hmem : r ∈ get_participant df (pyStrip rawId) := by
    simp [get_participant, List.mem_filter, h1, h2]
  cases hg : get_participant df (pyStrip rawId) with
  | nil => rw [hg] at hmem; cases hmem
  | cons p rest =>
    have hp : p ∈ get_participant df (pyStrip rawId) := by
      rw [hg]; exact List.mem_cons_self p rest
    have hpred := (List.mem_filter.mp hp).2
    have hid : p.idCode = pyStrip rawId := by simpa using hpred
    simp [hid]

theorem trimmed_exact_lookup_succeeds_witness :
    rowBobStale ∈ staleTable ∧ pyStrip " B200 " = rowBobStale.idCode ∧
    ((get_participant staleTable (pyStrip " B200 ")).head?).map Row.idCode =
      some (pyStrip " B200 ") :=
  ⟨by decide, by decide,
    trimmed_exact_lookup_succeeds staleTable " B200 " rowBobStale
      (by decide) (by decide)⟩

/-- C3 counterexample: Alice's bus check-in status is already `Yes`, yet
on a day outside her assigned days the handler reports the day-gate block,
not "already recorded" — the day gate is checked first. -/
theorem already_yes_day_gate_wins :
    (rowAliceDone.get "Bus Check-in").getD "No" = "Yes" ∧
    (checkin_tab [rowAliceDone] none 0 [rowAliceDone] "A100" Activity.bus
      "2025-08-22" "2025-08-22 09:00:00" true (fun _ => false)
      (fun _ => 0)).outcome =
      Outcome.blockedInvalidDay "❌ Not assigned for today (2025-08-22)." := by
  refine ⟨rfl, by decide⟩

/-- C3 (amended): once a participant's status for the processed activity
is `Yes`, any run on that (found) participant is blocked and performs no
mutation and no save; the reason is "already recorded" whenever the day
gate does not fire, and "not assigned for today" when it does. -/
theorem already_recorded_blocks_without_mutation
    (viewDf : Table) (cache : Option (Table × Nat)) (now : Nat)
    (store : Table) (rawId : String) (a : Activity) (today ts : String)
    (btn : Bool) (fails : Nat → Bool) (shaAt : Nat → Nat)
    (participant : Row) (rest : Table)
    (hne : (pyStrip rawId == "") = false)
    (hfind : get_participant viewDf (pyStrip rawId) = participant :: rest)
    (hyes : (participant.get (statusCol a)).getD "No" = "Yes") :
    (checkin_tab viewDf cache now store rawId a today ts btn fails
      shaAt).store = store ∧
    (checkin_tab viewDf cache now store rawId a today ts btn fails
      shaAt).saveIssued = false ∧
    (checkin_tab viewDf cache now store rawId a today ts btn fails
      shaAt).outcome =
      if day_gate_fires participant (statusCol a) today then
        Outcome.blockedInvalidDay
          ("❌ Not assigned for today (" ++ today ++ ").")
      else
        Outcome.blockedAlready
          ("⚠️ Already recorded for " ++ statusCol a ++ ".") := by
  have hY : ((participant.get (statusCol a)).getD "No" == "Yes") = true := by
    simp [hyes]
  simp only [checkin_tab, hne, hfind]
  rw [validate_action_eq]
  rcases Bool.eq_false_or_eq_true
      (day_gate_fires participant (statusCol a) today) with hd | hd <;>
  simp [hd, hY]

theorem already_recorded_blocks_without_mutation_witness :
    (checkin_tab [rowAliceDone] none 0 [rowAliceDone] "A100" Activity.bus
      "2025-08-22" "2025-08-22 10:00:00" true (fun _ => false)
      (fun _ => 0)).store = [rowAliceDone] ∧
    (checkin_tab [rowAliceDone] none 0 [rowAliceDone] "A100" Activity.bus
      "2025-08-22" "2025-08-22 10:00:00" true (fun _ => false)
      (fun _ => 0)).saveIssued = false ∧
    (checkin_tab [rowAliceDone] none 0 [rowAliceDone] "A100" Activity.bus
      "2025-08-22" "2025-08-22 10:00:00" true (fun _ => false)
      (fun _ => 0)).outcome =
      if day_gate_fires rowAliceDone (statusCol Activity.bus) "2025-08-22" then
        Outcome.blockedInvalidDay
          ("❌ Not assigned for today (" ++ "2025-08-22" ++ ").")
      else
        Outcome.blockedAlready
          ("⚠️ Already recorded for " ++ statusCol Activity.bus ++ ".") :=
  already_recorded_blocks_without_mutation [rowAliceDone] none 0
    [rowAliceDone] "A100" Activity.bus "2025-08-22" "2025-08-22 10:00:00"
    true (fun _ => false) (fun _ => 0) rowAliceDone [] (by decide)
    (by decide) (by decide)

theorem save_data_result_iff (df : Table) (fails : Nat → Bool)
    (shaAt : Nat → Nat) :
    (save_data df fails shaAt).1 = false ↔
      (fails 0 && fails 1 && fails 2) = true := by
  rcases Bool.eq_false_or_eq_true (fails 0) with h0 | h0 <;>
  rcases Bool.eq_false_or_eq_true (fails 1) with h1 | h1 <;>
  rcases Bool.eq_false_or_eq_true (fails 2) with h2 | h2 <;>
  simp [save_data, save_data_go, h0, h1, h2]

theorem save_data_attempts_le (df : Table) (fails : Nat → Bool)
    (shaAt : Nat → Nat) :
    countAttempts (save_data df fails shaAt).2 ≤ 3 := by
  rcases Bool.eq_false_or_eq_true (fails 0) with h0 | h0 <;>
  rcases Bool.eq_false_or_eq_true (fails 1) with h1 | h1 <;>
  rcases Bool.eq_false_or_eq_true (fails 2) with h2 | h2 <;>
  simp [save_data, save_data_go, countAttempts, h0, h1, h2]

theorem save_data_attempt_fresh (df : Table) (fails : Nat → Bool)
    (shaAt : Nat → Nat) (k s : Nat) (ok : Bool) (payload : Table)
    (h : SaveEvent.attemptEv k s ok payload ∈ (save_data df fails shaAt).2) :
    s = shaAt k ∧ ok = !fails k ∧ payload = df := by
  rcases Bool.eq_false_or_eq_true (fails 0) with h0 | h0 <;>
  rcases Bool.eq_false_or_eq_true (fails 1) with h1 | h1 <;>
  rcases Bool.eq_false_or_eq_true (fails 2) with h2 | h2 <;>
  simp [save_data, save_data_go, h0, h1, h2] at h <;>
  aesop

theorem save_data_sleep_fixed (df : Table) (fails : Nat → Bool)
    (shaAt : Nat → Nat) (t : Nat)
    (h : SaveEvent.sleepEv t ∈ (save_data df fails shaAt).2) : t = 15 := by
  rcases Bool.eq_false_or_eq_true (fails 0) with h0 | h0 <;>
  rcases Bool.eq_false_or_eq_true (fails 1) with h1 | h1 <;>
  rcases Bool.eq_false_or_eq_true (fails 2) with h2 | h2 <;>
  simp [save_data, save_data_go, h0, h1, h2] at h <;>
  aesop

/-- C2: `save_data` fails terminally iff all three of its attempts fail
(the fixed retry bound); it submits at most 3 writes; every submitted
write uses the version token fetched at that same attempt (never a stale
token from an earlier attempt) and carries the full encoded table (never a
partial or merged write); and every inter-attempt delay is the fixed
1.5 seconds. -/
theorem save_data_retry_contract (df : Table) (fails : Nat → Bool)
    (shaAt : Nat → Nat) :
    ((save_data df fails shaAt).1 = false ↔
      (fails 0 && fails 1 && fails 2) = true) ∧
    countAttempts (save_data df fails shaAt).2 ≤ 3 ∧
    (∀ (k s : Nat) (ok : Bool) (payload : Table),
      SaveEvent.attemptEv k s ok payload ∈ (save_data df fails shaAt).2 →
        s = shaAt k ∧ ok = !fails k ∧ payload = df) ∧
    (∀ t : Nat,
      SaveEvent.sleepEv t ∈ (save_data df fails shaAt).2 → t = 15) :=
  ⟨save_data_result_iff df fails shaAt, save_data_attempts_le df fails shaAt,
    fun k s ok payload h => save_data_attempt_fresh df fails shaAt k s ok
      payload h,
    fun t h => save_data_sleep_fixed df fails shaAt t h⟩

theorem save_data_retry_contract_witness :
    (SaveEvent.attemptEv 1 41 true [rowAliceTodo] ∈
      (save_data [rowAliceTodo] (fun k => k == 0) (fun k => 40 + k)).2) ∧
    (41 = 40 + 1 ∧ (true : Bool) = !((1 : Nat) == 0) ∧
      [rowAliceTodo] = [rowAliceTodo]) :=
  ⟨by decide,
    (save_data_retry_contract [rowAliceTodo] (fun k => k == 0)
      (fun k => 40 + k)).2.2.1 1 41 true [rowAliceTodo] (by decide)⟩

/-- C8: whenever a check-in tab run yields a blocked outcome (day gate or
already recorded), it issues no save and leaves the stored table
unchanged. -/
theorem blocked_run_is_noop (viewDf : Table) (cache : Option (Table × Nat))
    (now : Nat) (store : Table) (rawId : String) (a : Activity)
    (today ts : String) (btn : Bool) (fails : Nat → Bool)
    (shaAt : Nat → Nat) (m : String)
    (h : (checkin_tab viewDf cache now store rawId a today ts btn fails
        shaAt).outcome = Outcome.blockedInvalidDay m ∨
      (checkin_tab viewDf cache now store rawId a today ts btn fails
        shaAt).outcome = Outcome.blockedAlready m) :
    (checkin_tab viewDf cache now store rawId a today ts btn fails
      shaAt).store = store ∧
    (checkin_tab viewDf cache now store rawId a today ts btn fails
      shaAt).saveIssued = false := by
  rcases Bool.eq_false_or_eq_true (pyStrip rawId == "") with hid | hid
  · simp [checkin_tab, hid] at h
  · cases hg : get_participant viewDf (pyStrip rawId) with
    | nil => simp [checkin_tab, hid, hg] at h
    | cons p rest =>
      rcases Bool.eq_false_or_eq_true
          ((validate_action p (statusCol a) today).1 == "invalid_day")
        with h2 | h2
      · simp [checkin_tab, hid, hg, h2]
      · rcases Bool.eq_false_or_eq_true
            ((validate_action p (statusCol a) today).1 == "already")
          with h3 | h3
        · simp [checkin_tab, hid, hg, h2, h3]
        · cases btn
          · simp [checkin_tab, hid, hg, h2, h3] at h
          · rcases Bool.eq_false_or_eq_true
                ((save_data (apply_checkin (load_data cache now store)
                  (pyStrip rawId) a ts) fails shaAt).1) with h5 | h5 <;>
            simp [checkin_tab, hid, hg, h2, h3, h5] at h

theorem blocked_run_is_noop_witness :
    ((checkin_tab [rowAliceDone] none 0 [rowAliceDone] "A100" Activity.bus
        "2025-08-21" "2025-08-21 11:00:00" true (fun _ => false)
        (fun _ => 0)).outcome =
      Outcome.blockedInvalidDay "⚠️ Already recorded for Bus Check-in." ∨
      (checkin_tab [rowAliceDone] none 0 [rowAliceDone] "A100" Activity.bus
        "2025-08-21" "2025-08-21 11:00:00" true (fun _ => false)
        (fun _ => 0)).outcome =
      Outcome.blockedAlready "⚠️ Already recorded for Bus Check-in.") ∧
    (checkin_tab [rowAliceDone] none 0 [rowAliceDone] "A100" Activity.bus
      "2025-08-21" "2025-08-21 11:00:00" true (fun _ => false)
      (fun _ => 0)).store = [rowAliceDone] ∧
    (checkin_tab [rowAliceDone] none 0 [rowAliceDone] "A100" Activity.bus
      "2025-08-21" "2025-08-21 11:00:00" true (fun _ => false)
      (fun _ => 0)).saveIssued = false :=
  ⟨Or.inr (by decide),
    blocked_run_is_noop [rowAliceDone] none 0 [rowAliceDone] "A100"
      Activity.bus "2025-08-21" "2025-08-21 11:00:00" true (fun _ => false)
      (fun _ => 0) "⚠️ Already recorded for Bus Check-in."
      (Or.inr (by decide))⟩

theorem loc_set_no_match (df : Table) (id_code col v : String)
    (h : ∀ r ∈ df, (r.idCode == id_code) = false) :
    loc_set df id_code col v = df := by
  induction df with
  | nil => rfl
  | cons r rs ih =>
    have hr := h r (List.mem_cons_self r rs)
    have hrest : ∀ x ∈ rs, (x.idCode == id_code) = false :=
      fun x hx => h x (List.mem_cons_of_mem r hx)
    simp only [loc_set, List.map_cons, hr, Bool.false_eq_true, if_false,
      reduceIte, List.cons.injEq, true_and]
    exact ih hrest

/-- C10: when the participant was found in the view snapshot but is absent
from the table reloaded at mutation time, the masked update matches no
rows, the unchanged reloaded table is still saved, and the run reports
success. -/
theorem ghost_update_reports_success (viewDf : Table)
    (cache : Option (Table × Nat)) (now : Nat) (store : Table)
    (rawId : String) (a : Activity) (today ts : String)
    (fails : Nat → Bool) (shaAt : Nat → Nat) (p : Row) (rest : Table)
    (hne : (pyStrip rawId == "") = false)
    (hfind : get_participant viewDf (pyStrip rawId) = p :: rest)
    (hok : (validate_action p (statusCol a) today).1 = "ok")
    (habsent : ∀ r ∈ load_data cache now store,
      (r.idCode == pyStrip rawId) = false)
    (hsave : fails 0 = false) :
    (checkin_tab viewDf cache now store rawId a today ts true fails
      shaAt).outcome = Outcome.recorded p.name ∧
    (checkin_tab viewDf cache now store rawId a today ts true fails
      shaAt).store = load_data cache now store ∧
    (checkin_tab viewDf cache now store rawId a today ts true fails
      shaAt).saveIssued = true := by
  have happ : apply_checkin (load_data cache now store) (pyStrip rawId) a ts
      = load_data cache now store := by
    unfold apply_checkin
    rw [loc_set_no_match (load_data cache now store) _ _ _ habsent,
      loc_set_no_match (load_data cache now store) _ _ _ habsent]
  have hsv : (save_data (load_data cache now store) fails shaAt).1 = true := by
    simp [save_data, save_data_go, hsave]
  have h2 : ((validate_action p (statusCol a) today).1 == "invalid_day")
      = false := by simp [hok]
  have h3 : ((validate_action p (statusCol a) today).1 == "already")
      = false := by simp [hok]
  simp [checkin_tab, hne, hfind, h2, h3, happ, hsv]

theorem ghost_update_reports_success_witness :
    (checkin_tab [rowBobStale] none 0 [rowAliceTodo] "B200" Activity.food
      "2025-08-21" "2025-08-21 09:30:00" true (fun _ => false)
      (fun _ => 0)).outcome = Outcome.recorded rowBobStale.name ∧
    (checkin_tab [rowBobStale] none 0 [rowAliceTodo] "B200" Activity.food
      "2025-08-21" "2025-08-21 09:30:00" true (fun _ => false)
      (fun _ => 0)).store = load_data none 0 [rowAliceTodo] ∧
    (checkin_tab [rowBobStale] none 0 [rowAliceTodo] "B200" Activity.food
      "2025-08-21" "2025-08-21 09:30:00" true (fun _ => false)
      (fun _ => 0)).saveIssued = true :=
  ghost_update_reports_success [rowBobStale] none 0 [rowAliceTodo] "B200"
    Activity.food "2025-08-21" "2025-08-21 09:30:00" (fun _ => false)
    (fun _ => 0) rowBobStale [] (by decide) (by decide) (by decide)
    (by decide) (by decide)

theorem set_statusCol_idCode (r : Row) (a : Activity) (v : String) :
    (r.set (statusCol a) v).idCode = r.idCode := by
  cases a <;> rfl

theorem apply_checkin_getElem? (df : Table) (id_code : String)
    (a : Activity) (ts : String) (i : Nat) :
    (apply_checkin df id_code a ts)[i]? = df[i]?.map (fun r =>
      if r.idCode == id_code then
        (r.set (statusCol a) "Yes").set (tsCol a) ts
      else r) := by
  simp only [apply_checkin, loc_set, List.getElem?_map, Option.map_map]
  cases df[i]? with
  | none => rfl
  | some r =>
    rcases Decidable.em (r.idCode = id_code) with hm | hm <;>
      simp [hm, set_statusCol_idCode]

/-- C9: an engine mutation preserves the row count (no record is created
or deleted), leaves every non-target row untouched, and on the target row
changes only the processed activity's status and timestamp cells — the
status cell to `Yes` (so a `Yes` is never reverted) and the timestamp cell
to the current time — while the identity cells and every other activity's
cells keep their values. -/
theorem engine_mutation_frame (df : Table) (id_code ts : String)
    (a : Activity) (i : Nat) (r r2 : Row)
    (h1 : df[i]? = some r)
    (h2 : (apply_checkin df id_code a ts)[i]? = some r2) :
    (apply_checkin df id_code a ts).length = df.length ∧
    ((r.idCode == id_code) = true ∨ r2 = r) ∧
    ((r.idCode == id_code) = false ∨
      (r2.idCode = r.idCode ∧ r2.name = r.name ∧
        r2.assignedDay = r.assignedDay ∧
        (∀ b : Activity, b = a ∨
          (r2.get (statusCol b) = r.get (statusCol b) ∧
            r2.get (tsCol b) = r.get (tsCol b))) ∧
        r2.get (statusCol a) = some "Yes" ∧
        r2.get (tsCol a) = some ts)) := by
  have hlen : (apply_checkin df id_code a ts).length = df.length := by
    simp [apply_checkin, loc_set]
  have hrow := apply_checkin_getElem? df id_code a ts i
  simp only [h1, h2, Option.map_some', Option.some.injEq] at hrow
  have hr2 := hrow
  rcases Bool.eq_false_or_eq_true (r.idCode == id_code) with hm | hm
  · refine ⟨hlen, Or.inl hm, Or.inr ?_⟩
    have hr2' : r2 = (r.set (statusCol a) "Yes").set (tsCol a) ts := by
      rw [hr2]; simp [hm]
    rw [hr2']
    cases a <;>
      exact ⟨rfl, rfl, rfl,
        fun b => by
          cases b <;> first
            | exact Or.inl rfl
            | exact Or.inr ⟨rfl, rfl⟩,
        rfl, rfl⟩
  · refine ⟨hlen, Or.inr ?_, Or.inl hm⟩
    rw [hr2]; simp [hm]

theorem engine_mutation_frame_witness :
    (apply_checkin staleTable "B200" Activity.food
      "2025-08-21 09:00:00").length = staleTable.length ∧
    rowBobDone.get "Food Collection" = some "Yes" ∧
    rowBobDone.get "Bus Check-in" = rowBobStale.get "Bus Check-in" := by
  have h := engine_mutation_frame staleTable "B200" "2025-08-21 09:00:00"
    Activity.food 1 rowBobStale rowBobDone (by decide) (by decide)
  refine ⟨h.1, ?_, ?_⟩
  · rcases h.2.2 with hc | hc
    · exact absurd hc (by decide)
    · simpa [statusCol] using hc.2.2.2.2.1
  · rcases h.2.2 with hc | hc
    · exact absurd hc (by decide)
    · rcases hc.2.2.2.1 Activity.bus with hb | hb
      · exact absurd hb (by decide)
      · simpa [statusCol] using hb.1

/-- C1: the mutation path re-invokes `load_data`, which serves the
2-second-old cached table instead of the freshly fetched remote one: the
handler's successful save persists the mutation of the stale cache, and
the food collection a concurrent client had recorded in the remote store
is silently reverted — the lost update the spec's fresh-fetch requirement
exists to prevent. -/
theorem stale_cache_mutation_loses_update :
    load_data (some (staleTable, 10)) 12 freshTable = staleTable ∧
    staleTable ≠ freshTable ∧
    (checkin_tab staleTable (some (staleTable, 10)) 12 freshTable "A100"
      Activity.bus "2025-08-21" "2025-08-21 09:00:00" true (fun _ => false)
      (fun _ => 0)).store =
      apply_checkin staleTable "A100" Activity.bus "2025-08-21 09:00:00" ∧
    (checkin_tab staleTable (some (staleTable, 10)) 12 freshTable "A100"
      Activity.bus "2025-08-21" "2025-08-21 09:00:00" true (fun _ => false)
      (fun _ => 0)).store ≠
      apply_checkin freshTable "A100" Activity.bus "2025-08-21 09:00:00" ∧
    ((checkin_tab staleTable (some (staleTable, 10)) 12 freshTable "A100"
      Activity.bus "2025-08-21" "2025-08-21 09:00:00" true (fun _ => false)
      (fun _ => 0)).store[1]?).map (fun r => r.get "Food Collection") =
      some (some "No") ∧
    (freshTable[1]?).map (fun r => r.get "Food Collection") =
      some (some "Yes") := by
  decide

end Participants
